import Mathlib

/-!
Verification of the quality-scoring, routing and synthesis logic of the
digital-twin principal/expert agent system.

Shallow embedding of:
  src/agents/quality_check_interface.py (data model, shared assessors)
  src/agents/base_agent.py              (evaluate_quality, overall score, guard)
  src/agents/principal_agent.py         (router, synthesizer, orchestrator)
  src/agents/experts/ financial, utility, vehicle agents (generators, thresholds)
  src/utils/file_streamer.py            (result sink surface)

Python floats are modelled as rationals (ℚ); the scores and weights involved
are small decimal literals. Python dicts are modelled as association lists
with string keys (`AList` below), preserving insertion order, which is the
iteration order the code relies on.
-/

namespace DigitalTwin

/-- QualityDimension (quality_check_interface.py): fixed closed set of the
seven evaluated dimensions. -/
inductive QualityDimension where
  | accuracy
  | completeness
  | relevance
  | timeliness
  | consistency
  | clarity
  | actionability
deriving DecidableEq, Repr

/-- QualityMetric (quality_check_interface.py): one per dimension per
evaluation.  `score` and `weight` are floats in the source, modelled as ℚ. -/
structure QualityMetric where
  dimension : QualityDimension
  score : ℚ
  weight : ℚ
  description : String
  issues : List String := []
  recommendations : List String := []
deriving DecidableEq, Repr

/-- QualityReport (quality_check_interface.py).  The `summary` text and the
wall-clock `timestamp` fields are omitted (no claim references them; the
timestamp is real time).  `quality_level` holds the string value of the
level enum (the principal agent genuinely stores a plain string). -/
structure QualityReport where
  agent_name : String
  request_id : String
  overall_score : ℚ
  quality_level : String
  metrics : List QualityMetric
  passed_threshold : Bool
  approved_for_publication : Bool
  total_issues : Nat
  total_recommendations : Nat
deriving Repr

/-- BaseAgent._calculate_overall_score (base_agent.py lines 177-195):
empty list yields 0.0; total weight 0 yields 0.0; otherwise the weighted
mean Σ(score·weight)/Σ(weight). -/
def calculate_overall_score (metrics : List QualityMetric) : ℚ :=
  if metrics.isEmpty then 0
  else
    let total_weight := (metrics.map (fun m => m.weight)).sum
    if total_weight = 0 then 0
    else ((metrics.map (fun m => m.score * m.weight)).sum) / total_weight

/-- QualityReport.get_weighted_score (quality_check_interface.py lines 56-66):
identical computation to _calculate_overall_score, over the metric list
carried by the report itself. -/
def get_weighted_score (metrics : List QualityMetric) : ℚ :=
  if metrics.isEmpty then 0
  else
    let total_weight := (metrics.map (fun m => m.weight)).sum
    if total_weight = 0 then 0
    else ((metrics.map (fun m => m.score * m.weight)).sum) / total_weight

/-- BaseAgent.get_quality_threshold (base_agent.py line 158): default 0.6. -/
def base_get_quality_threshold : ℚ := 0.6

/-- FinancialHealthExpert.get_quality_threshold (financial_agent.py line 438). -/
def financial_get_quality_threshold : ℚ := 0.75

/-- UtilityManagementExpert.get_quality_threshold (utility_agent.py line 423). -/
def utility_get_quality_threshold : ℚ := 0.7

/-- VehicleManagementExpert.get_quality_threshold (vehicle_agent.py line 447). -/
def vehicle_get_quality_threshold : ℚ := 0.65

/-- PrincipalAgent.get_quality_threshold (principal_agent.py line 317). -/
def principal_get_quality_threshold : ℚ := 0.7

/-- BaseAgent.get_quality_metrics (base_agent.py lines 160-175): the seven
dimension/weight configuration entries, scores initialised to 0.0. -/
def base_get_quality_metrics : List QualityMetric :=
  [ { dimension := .accuracy, score := 0.0, weight := 0.3, description := "Accuracy assessment" },
    { dimension := .completeness, score := 0.0, weight := 0.2, description := "Completeness assessment" },
    { dimension := .relevance, score := 0.0, weight := 0.2, description := "Relevance assessment" },
    { dimension := .timeliness, score := 0.0, weight := 0.1, description := "Timeliness assessment" },
    { dimension := .consistency, score := 0.0, weight := 0.1, description := "Consistency assessment" },
    { dimension := .clarity, score := 0.0, weight := 0.05, description := "Clarity assessment" },
    { dimension := .actionability, score := 0.0, weight := 0.05, description := "Actionability assessment" } ]

/-- PrincipalAgent.get_quality_metrics (principal_agent.py lines 319-330):
six configuration entries; there is no timeliness entry. -/
def principal_get_quality_metrics : List QualityMetric :=
  [ { dimension := .accuracy, score := 0.0, weight := 0.25, description := "Synthesis accuracy" },
    { dimension := .completeness, score := 0.0, weight := 0.25, description := "Synthesis completeness" },
    { dimension := .relevance, score := 0.0, weight := 0.2, description := "Synthesis relevance" },
    { dimension := .consistency, score := 0.0, weight := 0.15, description := "Cross-expert consistency" },
    { dimension := .clarity, score := 0.0, weight := 0.1, description := "Synthesis clarity" },
    { dimension := .actionability, score := 0.0, weight := 0.05, description := "Actionability of synthesis" } ]

/-- The dimension dispatch of BaseAgent.evaluate_quality (base_agent.py
lines 99-118): iterate the configured metric list and, per entry, call the
assessor for the dimension of that entry.  The assessor family `A` stands
for the bound assessment methods of the agent applied to the fixed
(agent_result, original_request) pair; every branch of the source chain
appends exactly one assessed metric. -/
def assessed_metrics (A : QualityDimension → QualityMetric)
    (config : List QualityMetric) : List QualityMetric :=
  config.map fun m =>
    match m.dimension with
    | .accuracy => A .accuracy
    | .completeness => A .completeness
    | .relevance => A .relevance
    | .timeliness => A .timeliness
    | .consistency => A .consistency
    | .clarity => A .clarity
    | .actionability => A .actionability

/-- BaseAgent.evaluate_quality (base_agent.py lines 86-149), parametric in
the pieces resolved by dynamic dispatch: the per-agent threshold, metric
configuration, assessor family and quality-level naming. -/
def evaluate_quality (agent_name request_id : String) (threshold : ℚ)
    (config : List QualityMetric) (A : QualityDimension → QualityMetric)
    (level_of : ℚ → String) : QualityReport :=
  let assessed := assessed_metrics A config
  let overall_score := calculate_overall_score assessed
  let passed_threshold := decide (overall_score ≥ threshold)
  let approved_for_publication := passed_threshold && decide (overall_score ≥ 0.7)
  { agent_name := agent_name
    request_id := request_id
    overall_score := overall_score
    quality_level := level_of overall_score
    metrics := assessed
    passed_threshold := passed_threshold
    approved_for_publication := approved_for_publication
    total_issues := (assessed.map (fun m => m.issues.length)).sum
    total_recommendations := (assessed.map (fun m => m.recommendations.length)).sum }

/-- QualityCheckInterface.determine_quality_level (quality_check_interface.py
lines 282-301), rendered as the enum value string it selects. -/
def determine_quality_level (score : ℚ) : String :=
  if score ≥ 0.9 then "excellent"
  else if score ≥ 0.8 then "good"
  else if score ≥ 0.7 then "satisfactory"
  else if score ≥ 0.6 then "needs_improvement"
  else "poor"

/-- PrincipalAgent.determine_quality_level (principal_agent.py lines 463-474). -/
def principal_determine_quality_level (overall_score : ℚ) : String :=
  if overall_score ≥ 0.9 then "EXCELLENT"
  else if overall_score ≥ 0.8 then "VERY_GOOD"
  else if overall_score ≥ 0.7 then "GOOD"
  else if overall_score ≥ 0.6 then "ACCEPTABLE"
  else "POOR"

/-! ### Python string primitives

`tok in s` on Python strings is substring containment; `.lower()` maps each
character to lower case.  Strings are handled as character lists. -/

/-- Python str.lower(). -/
def lower_chars (s : List Char) : List Char := s.map Char.toLower

/-- Auxiliary: the second list is a leading block of the first. -/
def starts_with_chars : List Char → List Char → Bool
  | _, [] => true
  | [], _ :: _ => false
  | c :: cs, d :: ds => c == d && starts_with_chars cs ds

/-- Python `tok in hay` for strings: `has_sub_chars hay tok` is true when
`tok` occurs contiguously inside `hay` (the empty token always occurs). -/
def has_sub_chars : List Char → List Char → Bool
  | [], tok => tok.isEmpty
  | c :: t, tok => starts_with_chars (c :: t) tok || has_sub_chars t tok

/-- BaseExpertAgent._can_handle_request (base_agent.py lines 289-304):
lower-case the declared request type; accept when it contains one of the
multi-domain keywords, otherwise accept exactly when it contains the
expertise string lower-cased with spaces replaced by underscores. -/
def can_handle_request (expertise request_type_raw : String) : Bool :=
  let request_type := lower_chars request_type_raw.toList
  let multi_domain_keywords :=
    ["comprehensive_analysis", "multi_domain", "all", "general", "overview"]
  if multi_domain_keywords.any (fun k => has_sub_chars request_type k.toList) then true
  else
    has_sub_chars request_type
      ((lower_chars expertise.toList).map (fun c => if c = ' ' then '_' else c))

/-- BaseExpertAgent.process guard (base_agent.py lines 233-241): the process
wrapper raises ValueError (domain mismatch) exactly when
_can_handle_request returns false. -/
def expert_process_domain_mismatch (expertise request_type : String) : Bool :=
  !(can_handle_request expertise request_type)

/-! ### Router (expert selection) -/

def financial_request_keywords : List String :=
  ["financial", "budget", "cost", "expense", "revenue", "profit"]

def utility_request_keywords : List String :=
  ["utility", "energy", "water", "electricity", "consumption", "efficiency", "sustainability"]

def vehicle_request_keywords : List String :=
  ["vehicle", "fleet", "maintenance", "transport", "logistics", "fuel"]

/-- PrincipalAgent._determine_required_experts (principal_agent.py lines
190-228).  The expert_agents dict and the returned dict are modelled by
their ordered key lists ("financial"/"utility"/"vehicle" after
initialisation; possibly fewer when instantiation failed). -/
def determine_required_experts (registry : List String)
    (request_type_raw : String) : List String :=
  let request_type := lower_chars request_type_raw.toList
  if registry.isEmpty then []
  else
    let r1 :=
      if financial_request_keywords.any (fun k => has_sub_chars request_type k.toList) then
        (if registry.contains "financial" then ["financial"] else []) else []
    let r2 :=
      if utility_request_keywords.any (fun k => has_sub_chars request_type k.toList) then
        (if registry.contains "utility" then ["utility"] else []) else []
    let r3 :=
      if vehicle_request_keywords.any (fun k => has_sub_chars request_type k.toList) then
        (if registry.contains "vehicle" then ["vehicle"] else []) else []
    let required_experts := r1 ++ r2 ++ r3
    if required_experts.isEmpty then registry else required_experts

/-! ### Python dict values

Result dictionaries are modelled as insertion-ordered association lists with
string keys.  Values cover the shapes that actually occur: strings, lists of
strings, numbers (floats as ℚ, ints as Nat) and nested dicts. -/

inductive PVal where
  | s (v : String)
  | ls (v : List String)
  | q (v : ℚ)
  | n (v : Nat)
  | dict (v : List (String × PVal))

/-- A Python dict with string keys. -/
abbrev AList := List (String × PVal)

/-- Dict lookup `d[k]`, scanning for the first matching key. -/
def lookup_key : AList → String → Option PVal
  | [], _ => none
  | (k, v) :: rest, key => if k == key then some v else lookup_key rest key

/-- Python `k in d`. -/
def has_key (d : AList) (k : String) : Bool := (lookup_key d k).isSome

/-- Python truthiness of a value, as used by `if not d[field]` checks. -/
def pv_truthy : PVal → Bool
  | .s v => !(v == "")
  | .ls v => !v.isEmpty
  | .q v => decide (v ≠ 0)
  | .n v => decide (v ≠ 0)
  | .dict v => !v.isEmpty

/-- Python `d.get(k, dflt)` where the call site expects a string. -/
def get_str (d : AList) (k : String) (dflt : String) : String :=
  match lookup_key d k with
  | some (.s v) => v
  | _ => dflt

/-- Python `d.get(k, 0)` where the call site expects a number (values of other
shapes never reach these call sites). -/
def get_q (d : AList) (k : String) (dflt : ℚ) : ℚ :=
  match lookup_key d k with
  | some (.q v) => v
  | _ => dflt

/-- Python `d.get(k, ...)` with dict default where the call site expects a dict. -/
def get_dict (d : AList) (k : String) : List (String × PVal) :=
  match lookup_key d k with
  | some (.dict v) => v
  | _ => []

/-- Python `d.get(k, ...)` with list default, and guarded `d[k]`, where the call site expects a list. -/
def get_ls (d : AList) (k : String) : List String :=
  match lookup_key d k with
  | some (.ls v) => v
  | _ => []

/-- Python `d[k] = v`: replace in place when the key exists, else append. -/
def set_key : AList → String → PVal → AList
  | [], k, v => [(k, v)]
  | (k2, v2) :: rest, k, v =>
    if k2 == k then (k2, v) :: rest else (k2, v2) :: set_key rest k v

/-- Python `d[k].append(item)` on a list-valued entry: keys and order are
untouched, the list value of the matching entry grows by one element. -/
def append_item (d : AList) (k : String) (item : String) : AList :=
  d.map fun p =>
    (p.1,
     if p.1 == k then
       match p.2 with
       | .ls l => .ls (l ++ [item])
       | v => v
     else p.2)

/-! ### Shared timeliness rule -/

/-- QualityCheckInterface.assess_timeliness (quality_check_interface.py lines
168-217) — the shared, non-overridden timeliness rule.  The duration is
read from the result dict under "processing_time" with default 0; the
thresholds are the named constants of the source.  The f-string float
rendering inside the description/issue texts is dropped (no claim depends
on the digits), keeping the fixed message prefixes. -/
def assess_timeliness (agent_result : AList) : QualityMetric :=
  let processing_time := get_q agent_result "processing_time" 0
  let excellent_threshold : ℚ := 5.0
  let good_threshold : ℚ := 15.0
  let satisfactory_threshold : ℚ := 30.0
  let needs_improvement_threshold : ℚ := 60.0
  let sd : ℚ × String :=
    if processing_time ≤ excellent_threshold then (1.0, "Excellent response time")
    else if processing_time ≤ good_threshold then (0.8, "Good response time")
    else if processing_time ≤ satisfactory_threshold then (0.6, "Satisfactory response time")
    else if processing_time ≤ needs_improvement_threshold then
      (0.4, "Response time needs improvement")
    else (0.2, "Poor response time")
  let issues :=
    if good_threshold < processing_time then
      ["Response time exceeds optimal threshold"] else []
  let recommendations :=
    if good_threshold < processing_time then
      ["Consider optimizing agent processing logic"] else []
  { dimension := .timeliness, score := sd.1, weight := 0.1, description := sd.2,
    issues := issues, recommendations := recommendations }

/-! ### Interface default assessors (quality_check_interface.py) -/

/-- Default assess_accuracy (quality_check_interface.py lines 105-124). -/
def default_assess_accuracy : QualityMetric :=
  { dimension := .accuracy, score := 0.5, weight := 0.3,
    description := "Accuracy assessment not implemented for this agent",
    issues := ["Accuracy assessment not customized"],
    recommendations := ["Implement custom accuracy assessment"] }

/-- Default assess_completeness (quality_check_interface.py lines 126-145). -/
def default_assess_completeness : QualityMetric :=
  { dimension := .completeness, score := 0.5, weight := 0.2,
    description := "Completeness assessment not implemented for this agent",
    issues := ["Completeness assessment not customized"],
    recommendations := ["Implement custom completeness assessment"] }

/-- Default assess_relevance (quality_check_interface.py lines 147-166). -/
def default_assess_relevance : QualityMetric :=
  { dimension := .relevance, score := 0.5, weight := 0.2,
    description := "Relevance assessment not implemented for this agent",
    issues := ["Relevance assessment not customized"],
    recommendations := ["Implement custom relevance assessment"] }

/-- Default assess_consistency (quality_check_interface.py lines 219-238). -/
def default_assess_consistency : QualityMetric :=
  { dimension := .consistency, score := 0.5, weight := 0.1,
    description := "Consistency assessment not implemented for this agent",
    issues := ["Consistency assessment not customized"],
    recommendations := ["Implement custom consistency assessment"] }

/-- Default assess_clarity (quality_check_interface.py lines 240-259). -/
def default_assess_clarity : QualityMetric :=
  { dimension := .clarity, score := 0.5, weight := 0.05,
    description := "Clarity assessment not implemented for this agent",
    issues := ["Clarity assessment not customized"],
    recommendations := ["Implement custom clarity assessment"] }

/-- Default assess_actionability (quality_check_interface.py lines 261-280). -/
def default_assess_actionability : QualityMetric :=
  { dimension := .actionability, score := 0.5, weight := 0.05,
    description := "Actionability assessment not implemented for this agent",
    issues := ["Actionability assessment not customized"],
    recommendations := ["Implement custom actionability assessment"] }

/-- The assessor family of an agent that keeps all interface defaults
(everything constant except the shared timeliness rule). -/
def default_assessors (agent_result : AList) : QualityDimension → QualityMetric
  | .accuracy => default_assess_accuracy
  | .completeness => default_assess_completeness
  | .relevance => default_assess_relevance
  | .timeliness => assess_timeliness agent_result
  | .consistency => default_assess_consistency
  | .clarity => default_assess_clarity
  | .actionability => default_assess_actionability

/-! ### Synthesizer -/

/-- Loop body of PrincipalAgent._synthesize_results (principal_agent.py
lines 247-259): for each expert result without an "error" key, record its
"insights" value under the expert name, extend the aggregate recommendation
list, and record its "metrics" value under the expert name.  The
accumulator is (insights, recommendations, metrics). -/
def synthesize_step
    (acc : List (String × PVal) × List String × List (String × PVal))
    (p : String × AList) :
    List (String × PVal) × List String × List (String × PVal) :=
  if has_key p.2 "error" then acc
  else
    let acc1 := match lookup_key p.2 "insights" with
      | some v => acc.1 ++ [(p.1, v)]
      | none => acc.1
    let acc2 := match lookup_key p.2 "recommendations" with
      | some (.ls v) => acc.2.1 ++ v
      | _ => acc.2.1
    let acc3 := match lookup_key p.2 "metrics" with
      | some v => acc.2.2 ++ [(p.1, v)]
      | none => acc.2.2
    (acc1, acc2, acc3)

/-- PrincipalAgent._synthesize_results (principal_agent.py lines 230-279).
Iterates the expert results in insertion order.  The defensive try/except
fallback ("Synthesis failed") guards pure dictionary operations that cannot
fail in the model and is omitted; the request_data argument is unused by
the source body.  "recommendations" values are list-shaped at every
modelled call site. -/
def synthesize_results (_request_data : AList)
    (expert_results : List (String × AList)) : AList :=
  let a := expert_results.foldl synthesize_step ([], [], [])
  [ ("summary", .s ("Analysis completed by " ++ toString expert_results.length
       ++ " expert agents")),
    ("insights", .dict a.1),
    ("recommendations", .ls a.2.1),
    ("metrics", .dict a.2.2),
    ("expert_count", .n expert_results.length),
    ("successful_experts", .n (expert_results.filter
        (fun p => !(has_key p.2 "error"))).length),
    ("failed_experts", .n (expert_results.filter
        (fun p => has_key p.2 "error")).length) ]

/-! ### Orchestrator (principal) assessment rules -/

/-- PrincipalAgent.assess_accuracy (principal_agent.py lines 332-361).
The source builds local issues/recommendations lists but does not pass them
into the returned QualityMetric, so the metric carries empty lists; the
same holds for all six principal assessors. -/
def principal_assess_accuracy (agent_result : AList) : QualityMetric :=
  let score : ℚ := 0.8
  let expert_results := get_dict agent_result "expert_results"
  let score := if expert_results.isEmpty then score - 0.3 else score
  let failed_experts := expert_results.filter fun p =>
    match p.2 with
    | .dict r => has_key r "error"
    | _ => false
  let score :=
    if !failed_experts.isEmpty then score - 0.2 * (failed_experts.length : ℚ)
    else score
  let synthesis := get_dict agent_result "synthesis"
  let score := if has_key synthesis "error" then score - 0.4 else score
  { dimension := .accuracy, score := max 0.0 score, weight := 0.25,
    description := "Synthesis accuracy assessment" }

/-- PrincipalAgent.assess_completeness (principal_agent.py lines 363-382):
0.2 deducted per required synthesis field ("summary", "insights",
"recommendations") that is missing or falsy. -/
def principal_assess_completeness (agent_result : AList) : QualityMetric :=
  let score : ℚ := 0.9
  let synthesis := get_dict agent_result "synthesis"
  let missing := fun (f : String) =>
    match lookup_key synthesis f with
    | none => true
    | some v => !pv_truthy v
  let score := if missing "summary" then score - 0.2 else score
  let score := if missing "insights" then score - 0.2 else score
  let score := if missing "recommendations" then score - 0.2 else score
  { dimension := .completeness, score := max 0.0 score, weight := 0.25,
    description := "Synthesis completeness assessment" }

/-- PrincipalAgent.assess_relevance (principal_agent.py lines 384-401):
when both the request type and the synthesis summary are truthy, deduct 0.2
if the lower-cased summary does not contain the lower-cased request type. -/
def principal_assess_relevance (agent_result original_request : AList) : QualityMetric :=
  let score : ℚ := 0.85
  let request_type := lower_chars (get_str original_request "request_type" "").toList
  let synthesis := get_dict agent_result "synthesis"
  let summary_truthy := match lookup_key synthesis "summary" with
    | some v => pv_truthy v
    | none => false
  let score :=
    if !request_type.isEmpty && summary_truthy then
      (if !(has_sub_chars (lower_chars (get_str synthesis "summary" "").toList)
              request_type) then score - 0.2
       else score)
    else score
  { dimension := .relevance, score := max 0.0 score, weight := 0.2,
    description := "Synthesis relevance assessment" }

/-- PrincipalAgent.assess_consistency (principal_agent.py lines 403-425):
with more than one successful expert, deduct 0.1 when the concatenated
recommendation lists contain a duplicate (set size below list size). -/
def principal_assess_consistency (agent_result : AList) : QualityMetric :=
  let score : ℚ := 0.8
  let expert_results := get_dict agent_result "expert_results"
  let successful_experts := expert_results.filter fun p =>
    match p.2 with
    | .dict r => !has_key r "error"
    | _ => true
  let all_recommendations := successful_experts.foldl (fun acc p =>
    match p.2 with
    | .dict r =>
      (match lookup_key r "recommendations" with
       | some (.ls v) => acc ++ v
       | _ => acc)
    | _ => acc) []
  let score :=
    if successful_experts.length > 1 then
      (if all_recommendations.dedup.length < all_recommendations.length then
        score - 0.1
      else score)
    else score
  { dimension := .consistency, score := max 0.0 score, weight := 0.15,
    description := "Cross-expert consistency assessment" }

/-- PrincipalAgent.assess_clarity (principal_agent.py lines 427-443):
deduct 0.2 when the synthesis summary is shorter than 50 characters. -/
def principal_assess_clarity (agent_result : AList) : QualityMetric :=
  let score : ℚ := 0.85
  let synthesis := get_dict agent_result "synthesis"
  let summary := get_str synthesis "summary" ""
  let score := if summary.length < 50 then score - 0.2 else score
  { dimension := .clarity, score := max 0.0 score, weight := 0.1,
    description := "Synthesis clarity assessment" }

/-- PrincipalAgent.assess_actionability (principal_agent.py lines 445-461):
deduct 0.3 when the synthesis carries no recommendations. -/
def principal_assess_actionability (agent_result : AList) : QualityMetric :=
  let score : ℚ := 0.8
  let synthesis := get_dict agent_result "synthesis"
  let recommendations_list := get_ls synthesis "recommendations"
  let score := if recommendations_list.isEmpty then score - 0.3 else score
  { dimension := .actionability, score := max 0.0 score, weight := 0.05,
    description := "Synthesis actionability assessment" }

/-- Assessor family of the principal agent over a fixed
(agent_result, original_request) pair.  Timeliness falls back to the shared
interface rule; the principal metric configuration contains no timeliness
entry, so that branch is never selected by the dispatch. -/
def principal_assessors (agent_result original_request : AList) :
    QualityDimension → QualityMetric
  | .accuracy => principal_assess_accuracy agent_result
  | .completeness => principal_assess_completeness agent_result
  | .relevance => principal_assess_relevance agent_result original_request
  | .timeliness => assess_timeliness agent_result
  | .consistency => principal_assess_consistency agent_result
  | .clarity => principal_assess_clarity agent_result
  | .actionability => principal_assess_actionability agent_result

/-- Inherited evaluate_quality call of the principal agent
(principal_agent.py line 146 dispatching into base_agent.py lines 86-149)
with the principal threshold, configuration, assessors and level naming.
The request id is read from the original request with default "unknown". -/
def principal_evaluate_quality (agent_result original_request : AList) : QualityReport :=
  evaluate_quality "PrincipalAgent"
    (get_str original_request "request_id" "unknown")
    principal_get_quality_threshold
    principal_get_quality_metrics
    (principal_assessors agent_result original_request)
    principal_determine_quality_level

/-! ### Result sink and publication -/

/-- The public surface of FileStreamer (src/utils/file_streamer.py): the
class defines exactly these methods. -/
def file_streamer_methods : List String :=
  ["write_response", "write_response_sync", "get_responses"]

/-- FileStreamer.write_response (file_streamer.py lines 23-57): performs
the read-modify-append cycle and returns True on success, False on any
internal failure — every exception is caught and logged, none escapes.
`io_ok` abstracts whether the underlying file I/O succeeded. -/
def write_response (io_ok : Bool) : Bool := io_ok

/-- The call `self.file_streamer.stream_data(final_result)` performed by
PrincipalAgent._publish_results (principal_agent.py line 496): FileStreamer
defines no attribute named stream_data, so the attribute lookup raises
AttributeError on every invocation. -/
def file_streamer_stream_data : Except String Unit :=
  if file_streamer_methods.contains "stream_data" then Except.ok ()
  else Except.error "AttributeError: FileStreamer object has no attribute stream_data"

/-- PrincipalAgent._publish_results (principal_agent.py lines 487-500):
wraps the sink call in try/except, logs, and RE-RAISES any exception. -/
def publish_results (stream_outcome : Except String Unit) : Except String Unit :=
  match stream_outcome with
  | .ok u => .ok u
  | .error e => .error e

/-- The tail of PrincipalAgent.process (principal_agent.py lines 177-188):
when the synthesis report is approved, the response is queued and
_publish_results is awaited inside the surrounding try; any exception it
raises is caught by the outer except (lines 186-188), logged, and
re-raised.  Returns true exactly when the caller receives the
FinalResponse instead of an exception. -/
def process_returns_final_response (approved : Bool)
    (stream_outcome : Except String Unit) : Bool :=
  if approved then (publish_results stream_outcome).isOk else true

/-- Error entry recorded for a failed expert (principal_agent.py lines
136-140). -/
def expert_error_entry (expert_name error_message : String) : AList :=
  [("error", .s error_message), ("expert_agent", .s expert_name),
   ("status", .s "failed")]

/-- One iteration of the delegation loop (principal_agent.py lines
128-140): a raising expert is caught and degraded to its error entry; a
normal result is stored as-is. -/
def expert_slot (p : String × Except String AList) : String × AList :=
  (p.1, match p.2 with
        | .ok r => r
        | .error e => expert_error_entry p.1 e)

/-- FinalResponse envelope (principal_agent.py lines 150-161); wall-clock
processing_time and timestamp omitted. -/
structure FinalResponse where
  request_id : String
  request_type : String
  status : String
  expert_results : List (String × AList)
  synthesis : AList
  quality_report : QualityReport
  approved_for_publication : Bool

/-- PrincipalAgent.process (principal_agent.py lines 101-188).  `experts`
carries the selected experts in order together with the outcome of each
(normal result dict, or the message of the exception its process raised).
Step 6 publishes approved responses; an exception from _publish_results
propagates through the outer except, which re-raises. -/
def principal_process (is_initialized : Bool) (request_data : AList)
    (experts : List (String × Except String AList)) : Except String FinalResponse :=
  if !is_initialized then Except.error "Principal agent is not initialized"
  else
    let expert_results := experts.map expert_slot
    let synthesis_result := synthesize_results request_data expert_results
    let quality_report := principal_evaluate_quality synthesis_result request_data
    let final_response : FinalResponse :=
      { request_id := get_str request_data "request_id" "unknown"
        request_type := get_str request_data "request_type" "unknown"
        status := "completed"
        expert_results := expert_results
        synthesis := synthesis_result
        quality_report := quality_report
        approved_for_publication := quality_report.approved_for_publication }
    if quality_report.approved_for_publication then
      match publish_results file_streamer_stream_data with
      | .ok _ => .ok final_response
      | .error e => .error e
    else .ok final_response

/-! ### Expert analysis generators

Each generator builds its analysis dict with a fixed key set, then a fixed
ordered sequence of keyword-triggered branches appends canned strings into
the list-valued entries.  The per-branch sequence of `analysis[k].append(item)`
statements is rendered as `cond_append` over the ordered (key, item) pairs. -/

/-- Python `any(word in description_lower for word in words)`. -/
def contains_any (hay : List Char) (words : List String) : Bool :=
  words.any (fun w => has_sub_chars hay w.toList)

/-- Sequential `analysis[k].append(item)` statements, first pair first. -/
def append_items (d : AList) (items : List (String × String)) : AList :=
  items.foldl (fun acc p => append_item acc p.1 p.2) d

/-- One keyword-guarded branch of a generator. -/
def cond_append (b : Bool) (items : List (String × String)) (d : AList) : AList :=
  if b then append_items d items else d

/-- Initial analysis dict of
FinancialHealthExpert._generate_financial_analysis (financial_agent.py
lines 95-108). -/
def financial_analysis_base : AList :=
  [ ("analysis_type", .s "financial_health"),
    ("financial_health_score", .s "good"),
    ("key_issues", .ls []),
    ("budget_optimization", .ls []),
    ("investment_recommendations", .ls []),
    ("debt_management", .ls []),
    ("risk_assessment", .ls []),
    ("implementation_timeline", .s "3-12 months"),
    ("expected_outcomes", .ls []),
    ("priority_actions", .ls []),
    ("estimated_savings", .s "10-25%"),
    ("risk_level", .s "moderate") ]

/-- FinancialHealthExpert._generate_financial_analysis (financial_agent.py
lines 81-155): budget, investment, debt and general branches in source
order, then the fallback branch when no key issue was recorded. -/
def generate_financial_analysis (description : String) (_metadata : AList) : AList :=
  let description_lower := lower_chars description.toList
  let analysis := financial_analysis_base
  let analysis := cond_append
    (contains_any description_lower ["budget", "spending", "expenses", "cost"])
    [ ("key_issues", "Budget optimization needed"),
      ("budget_optimization", "Implement 50/30/20 budgeting rule"),
      ("budget_optimization", "Track all expenses for 30 days"),
      ("budget_optimization", "Identify and reduce discretionary spending"),
      ("expected_outcomes", "15-25% reduction in unnecessary expenses"),
      ("priority_actions", "Set up expense tracking system") ] analysis
  let analysis := cond_append
    (contains_any description_lower ["investment", "portfolio", "savings", "retirement"])
    [ ("key_issues", "Investment strategy optimization needed"),
      ("investment_recommendations", "Diversify investment portfolio"),
      ("investment_recommendations", "Increase retirement contributions"),
      ("investment_recommendations", "Consider index fund investments"),
      ("expected_outcomes", "8-12% annual investment returns"),
      ("priority_actions", "Review and rebalance investment portfolio") ] analysis
  let analysis := cond_append
    (contains_any description_lower ["debt", "credit", "loan", "payment"])
    [ ("key_issues", "Debt management strategy needed"),
      ("debt_management", "Prioritize high-interest debt repayment"),
      ("debt_management", "Consider debt consolidation options"),
      ("debt_management", "Negotiate lower interest rates"),
      ("expected_outcomes", "20-40% reduction in debt payments"),
      ("priority_actions", "Create debt repayment plan") ] analysis
  let analysis := cond_append
    (contains_any description_lower ["financial", "money", "finance"])
    [ ("key_issues", "Comprehensive financial health improvement needed"),
      ("budget_optimization", "Implement comprehensive financial planning"),
      ("investment_recommendations", "Develop long-term investment strategy"),
      ("debt_management", "Create debt reduction timeline"),
      ("expected_outcomes", "25-35% overall financial improvement"),
      ("priority_actions", "Conduct comprehensive financial audit") ] analysis
  let analysis := cond_append
    (get_ls analysis "key_issues").isEmpty
    [ ("key_issues", "General financial health assessment needed"),
      ("budget_optimization", "Implement basic budgeting system"),
      ("investment_recommendations", "Start emergency fund savings"),
      ("debt_management", "Review all outstanding debts"),
      ("expected_outcomes", "10-20% overall financial improvement"),
      ("priority_actions", "Schedule financial health assessment") ] analysis
  analysis

/-- Initial analysis dict of
UtilityManagementExpert._generate_utility_analysis (utility_agent.py lines
92-104). -/
def utility_analysis_base : AList :=
  [ ("analysis_type", .s "utility_management"),
    ("key_issues", .ls []),
    ("optimization_opportunities", .ls []),
    ("cost_savings_recommendations", .ls []),
    ("implementation_steps", .ls []),
    ("expected_benefits", .ls []),
    ("risk_considerations", .ls []),
    ("technology_recommendations", .ls []),
    ("priority_level", .s "medium"),
    ("estimated_savings", .s "5-15%"),
    ("implementation_timeline", .s "3-6 months") ]

/-- UtilityManagementExpert._generate_utility_analysis (utility_agent.py
lines 78-142): energy, water and general-optimization branches in source
order, then the fallback branch when no key issue was recorded. -/
def generate_utility_analysis (description : String) (_metadata : AList) : AList :=
  let description_lower := lower_chars description.toList
  let analysis := utility_analysis_base
  let analysis := cond_append
    (contains_any description_lower ["energy", "electricity", "power", "consumption"])
    [ ("key_issues", "High energy consumption patterns detected"),
      ("optimization_opportunities", "Implement smart energy monitoring systems"),
      ("cost_savings_recommendations", "Switch to energy-efficient appliances"),
      ("implementation_steps", "Conduct energy audit and identify high-consumption areas"),
      ("expected_benefits", "15-25% reduction in energy costs"),
      ("technology_recommendations", "Smart meters and energy monitoring devices") ] analysis
  let analysis := cond_append
    (contains_any description_lower ["water", "usage", "bills", "leak"])
    [ ("key_issues", "Water usage optimization needed"),
      ("optimization_opportunities", "Install water-efficient fixtures"),
      ("cost_savings_recommendations", "Implement leak detection systems"),
      ("implementation_steps", "Audit water usage patterns and identify leaks"),
      ("expected_benefits", "10-20% reduction in water costs"),
      ("technology_recommendations", "Smart water meters and leak detectors") ] analysis
  let analysis := cond_append
    (contains_any description_lower ["optimization", "efficiency"])
    [ ("key_issues", "Overall utility efficiency improvement needed"),
      ("optimization_opportunities", "Implement comprehensive utility monitoring"),
      ("cost_savings_recommendations", "Bundle utility services for better rates"),
      ("implementation_steps", "Develop utility management strategy and timeline"),
      ("expected_benefits", "20-30% overall utility cost reduction"),
      ("technology_recommendations", "Integrated utility management platform") ] analysis
  let analysis := cond_append
    (get_ls analysis "key_issues").isEmpty
    [ ("key_issues", "General utility management improvement opportunity"),
      ("optimization_opportunities",
        "Implement comprehensive utility monitoring and optimization"),
      ("cost_savings_recommendations",
        "Audit all utility services for optimization opportunities"),
      ("implementation_steps",
        "Conduct comprehensive utility audit and develop optimization plan"),
      ("expected_benefits", "10-25% overall utility cost reduction"),
      ("technology_recommendations",
        "Smart utility monitoring and management systems") ] analysis
  analysis

/-- Initial analysis dict of
VehicleManagementExpert._generate_vehicle_analysis (vehicle_agent.py lines
95-108). -/
def vehicle_analysis_base : AList :=
  [ ("analysis_type", .s "vehicle_management"),
    ("vehicle_health_score", .s "good"),
    ("key_issues", .ls []),
    ("maintenance_recommendations", .ls []),
    ("cost_optimization", .ls []),
    ("safety_improvements", .ls []),
    ("efficiency_enhancements", .ls []),
    ("implementation_timeline", .s "1-6 months"),
    ("expected_benefits", .ls []),
    ("priority_actions", .ls []),
    ("estimated_savings", .s "15-30%"),
    ("risk_level", .s "low") ]

/-- VehicleManagementExpert._generate_vehicle_analysis (vehicle_agent.py
lines 81-164): maintenance, fuel, cost, safety and general branches in
source order, then the fallback branch when no key issue was recorded. -/
def generate_vehicle_analysis (description : String) (_metadata : AList) : AList :=
  let description_lower := lower_chars description.toList
  let analysis := vehicle_analysis_base
  let analysis := cond_append
    (contains_any description_lower ["maintenance", "service", "repair", "oil", "tire"])
    [ ("key_issues", "Vehicle maintenance optimization needed"),
      ("maintenance_recommendations", "Implement preventive maintenance schedule"),
      ("maintenance_recommendations", "Regular oil changes and filter replacements"),
      ("maintenance_recommendations", "Tire rotation and alignment checks"),
      ("expected_benefits", "Extended vehicle lifespan and reduced repair costs"),
      ("priority_actions", "Schedule comprehensive vehicle inspection") ] analysis
  let analysis := cond_append
    (contains_any description_lower ["fuel", "gas", "mileage", "efficiency", "consumption"])
    [ ("key_issues", "Fuel efficiency optimization needed"),
      ("efficiency_enhancements", "Optimize driving behavior and routes"),
      ("efficiency_enhancements", "Maintain proper tire pressure"),
      ("efficiency_enhancements", "Reduce vehicle weight and aerodynamic drag"),
      ("expected_benefits", "20-30% improvement in fuel efficiency"),
      ("priority_actions", "Implement fuel tracking and monitoring system") ] analysis
  let analysis := cond_append
    (contains_any description_lower ["cost", "budget", "expense", "insurance", "registration"])
    [ ("key_issues", "Vehicle cost optimization needed"),
      ("cost_optimization", "Shop around for better insurance rates"),
      ("cost_optimization", "Compare fuel prices and use rewards programs"),
      ("cost_optimization", "Consider carpooling or ride-sharing options"),
      ("expected_benefits", "15-25% reduction in vehicle operating costs"),
      ("priority_actions", "Conduct comprehensive cost analysis") ] analysis
  let analysis := cond_append
    (contains_any description_lower ["safety", "brake", "light", "seat", "airbag"])
    [ ("key_issues", "Vehicle safety improvements needed"),
      ("safety_improvements", "Regular brake system inspections"),
      ("safety_improvements", "Ensure all lights and signals work properly"),
      ("safety_improvements", "Check seat belts and airbag systems"),
      ("expected_benefits", "Enhanced vehicle and passenger safety"),
      ("priority_actions", "Schedule safety inspection and repairs") ] analysis
  let analysis := cond_append
    (contains_any description_lower ["vehicle", "car", "auto"])
    [ ("key_issues", "Comprehensive vehicle management optimization needed"),
      ("maintenance_recommendations", "Implement comprehensive maintenance program"),
      ("cost_optimization", "Develop vehicle cost management strategy"),
      ("safety_improvements", "Establish regular safety check protocols"),
      ("expected_benefits", "25-35% overall vehicle cost and efficiency improvement"),
      ("priority_actions", "Create comprehensive vehicle management plan") ] analysis
  let analysis := cond_append
    (get_ls analysis "key_issues").isEmpty
    [ ("key_issues", "General vehicle management assessment needed"),
      ("maintenance_recommendations", "Establish regular maintenance schedule"),
      ("cost_optimization", "Track all vehicle-related expenses"),
      ("safety_improvements", "Schedule regular safety inspections"),
      ("expected_benefits", "10-20% overall vehicle improvement"),
      ("priority_actions", "Schedule comprehensive vehicle assessment") ] analysis
  analysis

/-- The wrapping performed by BaseExpertAgent.process after a successful
_expert_process (base_agent.py lines 251-257): processing_time,
expert_agent, expertise and the serialized quality_report are attached to
the analysis dict before it is returned. -/
def wrap_expert_result (result : AList) (processing_time : ℚ)
    (agent_name expertise : String) (quality_report : List (String × PVal)) : AList :=
  set_key (set_key (set_key (set_key result
    "processing_time" (.q processing_time))
    "expert_agent" (.s agent_name))
    "expertise" (.s expertise))
    "quality_report" (.dict quality_report)

inductive ExpertKind where
  | financial
  | utility
  | vehicle

def generate_for : ExpertKind → String → AList → AList
  | .financial => generate_financial_analysis
  | .utility => generate_utility_analysis
  | .vehicle => generate_vehicle_analysis

def expertise_of : ExpertKind → String
  | .financial => "financial_health"
  | .utility => "utility_management"
  | .vehicle => "vehicle_management"

def agent_name_of : ExpertKind → String
  | .financial => "FinancialHealthExpert"
  | .utility => "UtilityManagementExpert"
  | .vehicle => "VehicleManagementExpert"

/-- One successful expert invocation: which expert ran, under which slot
name, on which request description/metadata, with the measured duration
and the quality report the wrapper attaches. -/
structure ExpertRun where
  name : String
  kind : ExpertKind
  description : String
  metadata : AList
  processing_time : ℚ
  quality_report : List (String × PVal)

/-- The expert_results entry such a run contributes. -/
def expert_run_output (e : ExpertRun) : String × AList :=
  (e.name,
   wrap_expert_result (generate_for e.kind e.description e.metadata)
     e.processing_time (agent_name_of e.kind) (expertise_of e.kind) e.quality_report)

/-! ### Theorems -/

theorem listSum_nonneg (l : List ℚ) (h : ∀ x ∈ l, 0 ≤ x) : 0 ≤ l.sum := by
  induction l with
  | nil => simp
  | cons a t ih =>
    simp only [List.sum_cons]
    have ha := h a (by simp)
    have ht := ih (fun x hx => h x (by simp [hx]))
    linarith

theorem listSum_le (l : List QualityMetric) (f g : QualityMetric → ℚ)
    (h : ∀ m ∈ l, f m ≤ g m) : (l.map f).sum ≤ (l.map g).sum := by
  induction l with
  | nil => simp
  | cons a t ih =>
    simp only [List.map_cons, List.sum_cons]
    have ha := h a (by simp)
    have ht := ih (fun m hm => h m (by simp [hm]))
    linarith

/-- C1: for every evaluation, `passed_threshold` holds exactly when the
overall score is at least the threshold of the owning component, and
`approved_for_publication` holds exactly when the threshold test passed and
the overall score is at least the fixed 0.70 floor; hence approval implies
both.  The five configured thresholds are the claimed constants. -/
theorem evaluate_quality_threshold_approval :
    (∀ (agent_name request_id : String) (threshold : ℚ)
       (config : List QualityMetric) (A : QualityDimension → QualityMetric)
       (level_of : ℚ → String),
      let r := evaluate_quality agent_name request_id threshold config A level_of
      (r.passed_threshold = true ↔ r.overall_score ≥ threshold)
      ∧ (r.approved_for_publication = true ↔
          (r.passed_threshold = true ∧ r.overall_score ≥ 7/10))
      ∧ (r.approved_for_publication = true →
          r.passed_threshold = true ∧ r.overall_score ≥ 7/10))
    ∧ financial_get_quality_threshold = 3/4
    ∧ utility_get_quality_threshold = 7/10
    ∧ vehicle_get_quality_threshold = 13/20
    ∧ base_get_quality_threshold = 3/5
    ∧ principal_get_quality_threshold = 7/10 := by
  refine ⟨?_, by norm_num [financial_get_quality_threshold],
    by norm_num [utility_get_quality_threshold],
    by norm_num [vehicle_get_quality_threshold],
    by norm_num [base_get_quality_threshold],
    by norm_num [principal_get_quality_threshold]⟩
  intro agent_name request_id threshold config A level_of
  refine ⟨?_, ?_, ?_⟩
  · simp [evaluate_quality]
  · constructor
    · intro h
      simp only [evaluate_quality, Bool.and_eq_true, decide_eq_true_eq] at h ⊢
      refine ⟨by simp [h.1], ?_⟩
      have := h.2
      norm_num at this ⊢
      exact this
    · intro ⟨h1, h2⟩
      simp only [evaluate_quality, Bool.and_eq_true, decide_eq_true_eq] at h1 ⊢
      refine ⟨by simpa using h1, by norm_num; exact h2⟩
  · intro h
    simp only [evaluate_quality, Bool.and_eq_true, decide_eq_true_eq] at h ⊢
    refine ⟨by simp [h.1], by have := h.2; norm_num at this ⊢; exact this⟩

/-- C2: for metric lists whose scores and weights lie in [0,1]: with positive
total weight W the overall score is the weighted mean Σ(score·weight)/W and
lies in [0,1]; an empty list or zero total weight yields 0 (the division is
guarded away, so the result is always a well-defined rational).  The report
method get_weighted_score computes the same value. -/
theorem calculate_overall_score_weighted_mean
    (metrics : List QualityMetric)
    (h : ∀ m ∈ metrics, 0 ≤ m.score ∧ m.score ≤ 1 ∧ 0 ≤ m.weight ∧ m.weight ≤ 1) :
    (0 < (metrics.map (fun m => m.weight)).sum →
      calculate_overall_score metrics
        = (metrics.map (fun m => m.score * m.weight)).sum
            / (metrics.map (fun m => m.weight)).sum
      ∧ 0 ≤ calculate_overall_score metrics
      ∧ calculate_overall_score metrics ≤ 1)
    ∧ ((metrics = [] ∨ (metrics.map (fun m => m.weight)).sum = 0) →
        calculate_overall_score metrics = 0)
    ∧ get_weighted_score metrics = calculate_overall_score metrics := by
  refine ⟨?_, ?_, rfl⟩
  · intro hW
    have hne : metrics.isEmpty = false := by
      cases metrics with
      | nil => simp at hW
      | cons a t => rfl
    have hWne : ((metrics.map (fun m => m.weight)).sum = 0) = False := by
      simp only [eq_iff_iff, iff_false]
      exact ne_of_gt hW
    have hval : calculate_overall_score metrics
        = (metrics.map (fun m => m.score * m.weight)).sum
            / (metrics.map (fun m => m.weight)).sum := by
      simp only [calculate_overall_score, hne, Bool.false_eq_true, if_false]
      rw [if_neg (ne_of_gt hW)]
    refine ⟨hval, ?_, ?_⟩
    · rw [hval]
      apply div_nonneg _ (le_of_lt hW)
      apply listSum_nonneg
      intro x hx
      simp only [List.mem_map] at hx
      obtain ⟨m, hm, rfl⟩ := hx
      have := h m hm
      exact mul_nonneg this.1 this.2.2.1
    · rw [hval]
      rw [div_le_one hW]
      apply listSum_le
      intro m hm
      have hm' := h m hm
      calc m.score * m.weight ≤ 1 * m.weight :=
            mul_le_mul_of_nonneg_right hm'.2.1 hm'.2.2.1
        _ = m.weight := one_mul _
  · intro hcase
    rcases hcase with rfl | hW0
    · rfl
    · simp [calculate_overall_score, hW0]

/-- Witness for C2 at a concrete two-metric list. -/
theorem calculate_overall_score_weighted_mean_witness :
    calculate_overall_score
      [ { dimension := .accuracy, score := 0.9, weight := 0.3, description := "a" },
        { dimension := .relevance, score := 0.5, weight := 0.2, description := "r" } ]
      = (0.9 * 0.3 + (0.5 * 0.2 + 0)) / (0.3 + (0.2 + 0))
    ∧ (0 : ℚ) ≤ calculate_overall_score
      [ { dimension := .accuracy, score := 0.9, weight := 0.3, description := "a" },
        { dimension := .relevance, score := 0.5, weight := 0.2, description := "r" } ] := by
  have h := calculate_overall_score_weighted_mean
    [ { dimension := .accuracy, score := 0.9, weight := 0.3, description := "a" },
      { dimension := .relevance, score := 0.5, weight := 0.2, description := "r" } ]
    (by intro m hm; fin_cases hm <;> norm_num)
  have h1 := h.1 (by norm_num)
  refine ⟨?_, h1.2.1⟩
  have := h1.1
  simpa using this

theorem can_handle_request_eq (expertise request_type : String) :
    can_handle_request expertise request_type
      = ((["comprehensive_analysis", "multi_domain", "all", "general", "overview"].any
            (fun k => has_sub_chars (lower_chars request_type.toList) k.toList))
         || has_sub_chars (lower_chars request_type.toList)
              ((lower_chars expertise.toList).map (fun c => if c = ' ' then '_' else c))) := by
  simp only [can_handle_request]
  split
  · next h => simp only [h, Bool.true_or]
  · next h =>
    simp only [Bool.not_eq_true] at h
    simp only [h, Bool.false_or]

/-- C5: the process wrapper of an expert stub raises the domain-mismatch
error exactly when the lower-cased request type contains neither the own expertise
token nor any of the five multi-domain override tokens; in particular
request_type "comprehensive_analysis" is accepted by all three experts. -/
theorem expert_guard_domain_mismatch :
    (∀ expertise request_type : String,
      expert_process_domain_mismatch expertise request_type = true ↔
        (has_sub_chars (lower_chars request_type.toList)
            "comprehensive_analysis".toList = false
         ∧ has_sub_chars (lower_chars request_type.toList) "multi_domain".toList = false
         ∧ has_sub_chars (lower_chars request_type.toList) "all".toList = false
         ∧ has_sub_chars (lower_chars request_type.toList) "general".toList = false
         ∧ has_sub_chars (lower_chars request_type.toList) "overview".toList = false
         ∧ has_sub_chars (lower_chars request_type.toList)
             ((lower_chars expertise.toList).map
               (fun c => if c = ' ' then '_' else c)) = false))
    ∧ expert_process_domain_mismatch "financial_health" "comprehensive_analysis" = false
    ∧ expert_process_domain_mismatch "utility_management" "comprehensive_analysis" = false
    ∧ expert_process_domain_mismatch "vehicle_management" "comprehensive_analysis" = false := by
  refine ⟨?_, by decide, by decide, by decide⟩
  intro expertise request_type
  unfold expert_process_domain_mismatch
  rw [can_handle_request_eq]
  simp only [List.any_cons, List.any_nil, Bool.or_false, Bool.not_eq_true',
    Bool.or_eq_false_iff]
  tauto

/-- C7: a request type containing none of the financial, utility or vehicle
routing keywords selects the entire registered expert set; "general"
against the standard three experts selects all three, and an empty
registry yields the empty selection. -/
theorem router_fallback_full_registry :
    (∀ (registry : List String) (request_type : String),
      financial_request_keywords.any
        (fun k => has_sub_chars (lower_chars request_type.toList) k.toList) = false →
      utility_request_keywords.any
        (fun k => has_sub_chars (lower_chars request_type.toList) k.toList) = false →
      vehicle_request_keywords.any
        (fun k => has_sub_chars (lower_chars request_type.toList) k.toList) = false →
      determine_required_experts registry request_type = registry)
    ∧ determine_required_experts ["financial", "utility", "vehicle"] "general"
        = ["financial", "utility", "vehicle"]
    ∧ (∀ request_type : String, determine_required_experts [] request_type = []) := by
  refine ⟨?_, by decide, ?_⟩
  · intro registry request_type h1 h2 h3
    by_cases hreg : registry.isEmpty
    · simp only [determine_required_experts, hreg, if_true]
      exact (List.isEmpty_iff.mp hreg).symm
    · have hreg' : registry.isEmpty = false := by
        revert hreg; cases registry.isEmpty <;> simp
      simp only [determine_required_experts, hreg', h1, h2, h3, Bool.false_eq_true,
        if_false, List.append_nil, List.isEmpty_nil, if_true]
  · intro request_type
    simp [determine_required_experts]

/-- Witness for C7: "general" matches no routing keyword, so the fallback
applies over the standard registry. -/
theorem router_fallback_full_registry_witness :
    determine_required_experts ["financial", "utility", "vehicle"] "general"
      = ["financial", "utility", "vehicle"] :=
  router_fallback_full_registry.1 ["financial", "utility", "vehicle"] "general"
    (by decide) (by decide) (by decide)

theorem lookup_key_mapVal_isSome (g : String → PVal → PVal) (d : AList) (k' : String) :
    (lookup_key (d.map fun p => (p.1, g p.1 p.2)) k').isSome
      = (lookup_key d k').isSome := by
  induction d with
  | nil => rfl
  | cons p t ih =>
    by_cases h2 : (p.1 == k') = true <;> simp [lookup_key, h2, ih]

theorem has_key_append_item (d : AList) (k item k' : String) :
    has_key (append_item d k item) k' = has_key d k' :=
  lookup_key_mapVal_isSome
    (fun a b => if a == k then (match b with | .ls l => .ls (l ++ [item]) | v => v) else b)
    d k'

theorem lookup_key_set_key_ne (d : AList) (k k' : String) (v : PVal)
    (h : (k == k') = false) :
    lookup_key (set_key d k v) k' = lookup_key d k' := by
  induction d with
  | nil => simp [set_key, lookup_key, h]
  | cons p t ih =>
    obtain ⟨k2, v2⟩ := p
    by_cases h2 : (k2 == k) = true
    · have h3 : (k2 == k') = false := by
        have hk : k2 = k := by simpa using h2
        subst hk
        exact h
      simp [set_key, lookup_key, h2, h3]
    · have h2' : (k2 == k) = false := by
        revert h2; cases k2 == k <;> simp
      by_cases h3 : (k2 == k') = true <;>
        simp [set_key, lookup_key, h2', h3, ih]

/-- C9: the shared timeliness rule maps the recorded duration d to the
banded score 1.0 / 0.8 / 0.6 / 0.4 / 0.2 at cut-offs 5, 15, 30, 60 seconds;
its issues list is non-empty exactly when d exceeds 15; and d = 45 yields
score 0.4 with the threshold-exceeded issue recorded. -/
theorem assess_timeliness_bands (d : ℚ) :
    (d ≤ 5 → (assess_timeliness [("processing_time", PVal.q d)]).score = 1)
    ∧ (5 < d → d ≤ 15 → (assess_timeliness [("processing_time", PVal.q d)]).score = 4/5)
    ∧ (15 < d → d ≤ 30 → (assess_timeliness [("processing_time", PVal.q d)]).score = 3/5)
    ∧ (30 < d → d ≤ 60 → (assess_timeliness [("processing_time", PVal.q d)]).score = 2/5)
    ∧ (60 < d → (assess_timeliness [("processing_time", PVal.q d)]).score = 1/5)
    ∧ ((assess_timeliness [("processing_time", PVal.q d)]).issues ≠ [] ↔ 15 < d)
    ∧ (assess_timeliness [("processing_time", PVal.q 45)]).score = 2/5
    ∧ (assess_timeliness [("processing_time", PVal.q 45)]).issues
        = ["Response time exceeds optimal threshold"] := by
  have hval : get_q [("processing_time", PVal.q d)] "processing_time" 0 = d := rfl
  refine ⟨?_, ?_, ?_, ?_, ?_, ?_, by norm_num [assess_timeliness, get_q, lookup_key],
    by norm_num [assess_timeliness, get_q, lookup_key]⟩
  · intro h
    simp only [assess_timeliness, hval]
    norm_num [h]
  · intro h5 h15
    simp only [assess_timeliness, hval]
    rw [if_neg (by norm_num; linarith), if_pos (by norm_num; linarith)]
    norm_num
  · intro h15 h30
    simp only [assess_timeliness, hval]
    rw [if_neg (by norm_num; linarith), if_neg (by norm_num; linarith),
      if_pos (by norm_num; linarith)]
    norm_num
  · intro h30 h60
    simp only [assess_timeliness, hval]
    rw [if_neg (by norm_num; linarith), if_neg (by norm_num; linarith),
      if_neg (by norm_num; linarith), if_pos (by norm_num; linarith)]
    norm_num
  · intro h60
    simp only [assess_timeliness, hval]
    rw [if_neg (by norm_num; linarith), if_neg (by norm_num; linarith),
      if_neg (by norm_num; linarith), if_neg (by norm_num; linarith)]
    norm_num
  · simp only [assess_timeliness, hval]
    by_cases h : (15 : ℚ) < d
    · rw [if_pos (by norm_num; linarith)]
      simpa using h
    · rw [if_neg (by norm_num; linarith)]
      simpa using h

/-- Witness for C9 at the claimed concrete duration 45.0 s. -/
theorem assess_timeliness_bands_witness :
    (assess_timeliness [("processing_time", PVal.q 45)]).score = 2/5
    ∧ (assess_timeliness [("processing_time", PVal.q 45)]).issues ≠ [] := by
  have h := assess_timeliness_bands 45
  exact ⟨h.2.2.2.1 (by norm_num) (by norm_num),
    h.2.2.2.2.2.1.mpr (by norm_num)⟩

theorem synthesize_fold_recommendations (rs : List (String × AList))
    (a1 : List (String × PVal)) (a2 : List String) (a3 : List (String × PVal)) :
    (rs.foldl synthesize_step (a1, a2, a3)).2.1
      = a2 ++ (rs.filter (fun p => !(has_key p.2 "error"))).flatMap
          (fun p => get_ls p.2 "recommendations") := by
  induction rs generalizing a1 a2 a3 with
  | nil => simp
  | cons p t ih =>
    by_cases he : has_key p.2 "error"
    · simp only [List.foldl_cons, synthesize_step, he, if_true, List.filter_cons,
        Bool.not_true, Bool.false_eq_true, ite_false]
      exact ih a1 a2 a3
    · have he' : has_key p.2 "error" = false := by
        revert he; cases has_key p.2 "error" <;> simp
      simp only [List.foldl_cons, synthesize_step, he', Bool.false_eq_true, if_false,
        List.filter_cons, Bool.not_false, if_true, List.flatMap_cons]
      rw [ih]
      have hrec : (match lookup_key p.2 "recommendations" with
          | some (.ls v) => a2 ++ v
          | _ => a2) = a2 ++ get_ls p.2 "recommendations" := by
        unfold get_ls
        cases hv : lookup_key p.2 "recommendations" with
        | none => simp
        | some v => cases v <;> simp
      rw [hrec, List.append_assoc]

/-- C8: the synthesis recommendation list is the pure concatenation, in
iteration order, of the "recommendations" lists of the error-free expert
results, duplicates preserved; two experts each contributing the identical
string "Switch to energy-efficient appliances" yield it twice. -/
theorem synthesize_concatenates_recommendations :
    (∀ (request_data : AList) (expert_results : List (String × AList)),
      lookup_key (synthesize_results request_data expert_results) "recommendations"
        = some (.ls ((expert_results.filter (fun p => !(has_key p.2 "error"))).flatMap
            (fun p => get_ls p.2 "recommendations"))))
    ∧ lookup_key (synthesize_results []
        [ ("utility",
           [("recommendations", .ls ["Switch to energy-efficient appliances"])]),
          ("financial",
           [("recommendations", .ls ["Switch to energy-efficient appliances"])]) ])
        "recommendations"
      = some (.ls ["Switch to energy-efficient appliances",
                   "Switch to energy-efficient appliances"]) := by
  constructor
  · intro request_data expert_results
    have hl : lookup_key (synthesize_results request_data expert_results)
        "recommendations"
        = some (PVal.ls ((expert_results.foldl synthesize_step ([], [], [])).2.1)) := rfl
    rw [hl, synthesize_fold_recommendations]
    simp
  · rfl

/-- C3 (amended): with any assessor family returning a metric of the
dimension it is asked for — as every assessor of the code base does —
evaluation under the base (expert) configuration produces exactly one
metric per each of the seven dimensions in fixed order, while evaluation
under the principal configuration produces exactly the six non-timeliness
dimensions. -/
theorem evaluate_quality_dimension_coverage
    (A : QualityDimension → QualityMetric) (hA : ∀ d, (A d).dimension = d) :
    (∀ (agent_name request_id : String) (threshold : ℚ) (level_of : ℚ → String),
      ((evaluate_quality agent_name request_id threshold
          base_get_quality_metrics A level_of).metrics.map (fun m => m.dimension))
        = [.accuracy, .completeness, .relevance, .timeliness,
           .consistency, .clarity, .actionability])
    ∧ (∀ (agent_name request_id : String) (threshold : ℚ) (level_of : ℚ → String),
      ((evaluate_quality agent_name request_id threshold
          principal_get_quality_metrics A level_of).metrics.map (fun m => m.dimension))
        = [.accuracy, .completeness, .relevance,
           .consistency, .clarity, .actionability]) := by
  constructor <;> intro agent_name request_id threshold level_of <;>
    simp [evaluate_quality, assessed_metrics, base_get_quality_metrics,
      principal_get_quality_metrics, hA]

/-- Witness for the amended C3 with the interface-default assessor family. -/
theorem evaluate_quality_dimension_coverage_witness :
    ((evaluate_quality "BaseAgent" "req-1" base_get_quality_threshold
        base_get_quality_metrics (default_assessors []) determine_quality_level).metrics.map
        (fun m => m.dimension))
      = [.accuracy, .completeness, .relevance, .timeliness,
         .consistency, .clarity, .actionability]
    ∧ ((evaluate_quality "PrincipalAgent" "req-1" principal_get_quality_threshold
        principal_get_quality_metrics (default_assessors []) determine_quality_level).metrics.map
        (fun m => m.dimension))
      = [.accuracy, .completeness, .relevance,
         .consistency, .clarity, .actionability] := by
  have h := evaluate_quality_dimension_coverage (default_assessors [])
    (by intro d; cases d <;> rfl)
  exact ⟨h.1 _ _ _ _, h.2 _ _ _ _⟩

/-- Counterexample for C3 as stated: the synthesis evaluation of the
orchestrator
(an empty expert-result map, as one concrete input) produces a
report whose metric list has NO timeliness entry — not one per each of the
seven dimensions. -/
theorem principal_metrics_missing_timeliness :
    ((principal_evaluate_quality (synthesize_results [] []) []).metrics.map
        (fun m => m.dimension))
      = [.accuracy, .completeness, .relevance, .consistency, .clarity, .actionability]
    ∧ ((principal_evaluate_quality (synthesize_results [] []) []).metrics.map
        (fun m => m.dimension)).count .timeliness = 0 := by
  constructor
  · simp [principal_evaluate_quality, evaluate_quality, assessed_metrics,
      principal_get_quality_metrics, principal_assessors, principal_assess_accuracy,
      principal_assess_completeness, principal_assess_relevance,
      principal_assess_consistency, principal_assess_clarity,
      principal_assess_actionability]
  · simp [principal_evaluate_quality, evaluate_quality, assessed_metrics,
      principal_get_quality_metrics, principal_assessors, principal_assess_accuracy,
      principal_assess_completeness, principal_assess_relevance,
      principal_assess_consistency, principal_assess_clarity,
      principal_assess_actionability, List.count_cons, List.count_nil]

/-- C4 (code bug): a failing sink write does NOT leave process returning
the FinalResponse — _publish_results re-raises and process re-raises, so
the caller gets the exception; moreover every publication attempt fails
up-front because FileStreamer has no stream_data method.  The
write_response method — the boolean sink interface the spec describes —
indeed never raises and reports failure as False. -/
theorem publish_failure_raises :
    file_streamer_stream_data
      = Except.error "AttributeError: FileStreamer object has no attribute stream_data"
    ∧ (∀ e : String, publish_results (Except.error e) = Except.error e)
    ∧ process_returns_final_response true file_streamer_stream_data = false
    ∧ (∀ e : String, process_returns_final_response true (Except.error e) = false)
    ∧ (∀ io_ok : Bool, write_response io_ok = io_ok) :=
  ⟨rfl, fun _ => rfl, rfl, fun _ => rfl, fun _ => rfl⟩

/-! ### The orchestrator process pipeline -/

theorem lookup_synth_expert_results (req : AList) (rs : List (String × AList)) :
    lookup_key (synthesize_results req rs) "expert_results" = none := rfl

theorem lookup_synth_synthesis (req : AList) (rs : List (String × AList)) :
    lookup_key (synthesize_results req rs) "synthesis" = none := rfl

theorem get_dict_of_none (d : AList) (k : String) (h : lookup_key d k = none) :
    get_dict d k = [] := by
  unfold get_dict
  rw [h]

theorem principal_assess_accuracy_on_synth (req : AList) (rs : List (String × AList)) :
    principal_assess_accuracy (synthesize_results req rs)
      = { dimension := .accuracy, score := 1/2, weight := 1/4,
          description := "Synthesis accuracy assessment" } := by
  unfold principal_assess_accuracy
  rw [get_dict_of_none _ _ (lookup_synth_expert_results req rs),
      get_dict_of_none _ _ (lookup_synth_synthesis req rs)]
  norm_num [has_key, lookup_key]

theorem principal_assess_completeness_on_synth (req : AList) (rs : List (String × AList)) :
    principal_assess_completeness (synthesize_results req rs)
      = { dimension := .completeness, score := 3/10, weight := 1/4,
          description := "Synthesis completeness assessment" } := by
  unfold principal_assess_completeness
  rw [get_dict_of_none _ _ (lookup_synth_synthesis req rs)]
  norm_num [lookup_key]

theorem principal_assess_relevance_on_synth (req orig : AList) (rs : List (String × AList)) :
    principal_assess_relevance (synthesize_results req rs) orig
      = { dimension := .relevance, score := 17/20, weight := 1/5,
          description := "Synthesis relevance assessment" } := by
  unfold principal_assess_relevance
  rw [get_dict_of_none _ _ (lookup_synth_synthesis req rs)]
  norm_num [lookup_key, Bool.and_false]

theorem principal_assess_consistency_on_synth (req : AList) (rs : List (String × AList)) :
    principal_assess_consistency (synthesize_results req rs)
      = { dimension := .consistency, score := 4/5, weight := 3/20,
          description := "Cross-expert consistency assessment" } := by
  unfold principal_assess_consistency
  rw [get_dict_of_none _ _ (lookup_synth_expert_results req rs)]
  norm_num [List.filter]

theorem principal_assess_clarity_on_synth (req : AList) (rs : List (String × AList)) :
    principal_assess_clarity (synthesize_results req rs)
      = { dimension := .clarity, score := 13/20, weight := 1/10,
          description := "Synthesis clarity assessment" } := by
  unfold principal_assess_clarity
  rw [get_dict_of_none _ _ (lookup_synth_synthesis req rs)]
  norm_num [get_str, lookup_key, String.length]

theorem principal_assess_actionability_on_synth (req : AList) (rs : List (String × AList)) :
    principal_assess_actionability (synthesize_results req rs)
      = { dimension := .actionability, score := 1/2, weight := 1/20,
          description := "Synthesis actionability assessment" } := by
  unfold principal_assess_actionability
  rw [get_dict_of_none _ _ (lookup_synth_synthesis req rs)]
  norm_num [get_ls, lookup_key]

/-- The synthesis dict never carries "expert_results" or "synthesis" keys,
so the principal assessment rules, which read those keys off the evaluated
payload, produce the same six scores on every synthesis: 0.5, 0.3, 0.85,
0.8, 0.65, 0.5 — a constant overall weighted score of 0.58, below the 0.7
publication threshold.  Approval of a synthesis report is therefore
impossible. -/
theorem principal_eval_on_synthesis (req orig : AList) (rs : List (String × AList)) :
    (principal_evaluate_quality (synthesize_results req rs) orig).overall_score = 29/50
    ∧ (principal_evaluate_quality (synthesize_results req rs) orig).approved_for_publication
        = false := by
  have hov :
      (principal_evaluate_quality (synthesize_results req rs) orig).overall_score = 29/50 := by
    show calculate_overall_score
      (assessed_metrics (principal_assessors (synthesize_results req rs) orig)
        principal_get_quality_metrics) = 29/50
    rw [show assessed_metrics (principal_assessors (synthesize_results req rs) orig)
        principal_get_quality_metrics
      = [principal_assess_accuracy (synthesize_results req rs),
         principal_assess_completeness (synthesize_results req rs),
         principal_assess_relevance (synthesize_results req rs) orig,
         principal_assess_consistency (synthesize_results req rs),
         principal_assess_clarity (synthesize_results req rs),
         principal_assess_actionability (synthesize_results req rs)] from rfl]
    rw [principal_assess_accuracy_on_synth req rs,
        principal_assess_completeness_on_synth req rs,
        principal_assess_relevance_on_synth req orig rs,
        principal_assess_consistency_on_synth req rs,
        principal_assess_clarity_on_synth req rs,
        principal_assess_actionability_on_synth req rs]
    norm_num [calculate_overall_score]
  refine ⟨hov, ?_⟩
  show (decide ((principal_evaluate_quality (synthesize_results req rs) orig).overall_score
      ≥ principal_get_quality_threshold)
    && decide ((principal_evaluate_quality (synthesize_results req rs) orig).overall_score
      ≥ 0.7)) = false
  rw [hov]
  norm_num [principal_get_quality_threshold]

/-- C6: whichever selected experts raise, each failure is recorded as a
per-expert entry carrying the error message and status "failed", the loop
continues over the remaining experts, and the initialized orchestrator
still synthesizes and returns a complete FinalResponse — individual expert
failures never produce a top-level failure of the request. -/
theorem process_absorbs_expert_failures :
    ∀ (request_data : AList) (experts : List (String × Except String AList)),
      ∃ final : FinalResponse,
        principal_process true request_data experts = Except.ok final
        ∧ final.expert_results = experts.map expert_slot
        ∧ final.synthesis = synthesize_results request_data (experts.map expert_slot)
        ∧ final.status = "completed"
        ∧ ∀ (expert_name e : String),
            expert_slot (expert_name, Except.error e)
              = (expert_name,
                 [("error", .s e), ("expert_agent", .s expert_name),
                  ("status", .s "failed")]) := by
  intro request_data experts
  have happ :=
    (principal_eval_on_synthesis request_data request_data (experts.map expert_slot)).2
  refine ⟨{ request_id := get_str request_data "request_id" "unknown"
            request_type := get_str request_data "request_type" "unknown"
            status := "completed"
            expert_results := experts.map expert_slot
            synthesis := synthesize_results request_data (experts.map expert_slot)
            quality_report := principal_evaluate_quality
              (synthesize_results request_data (experts.map expert_slot)) request_data
            approved_for_publication := (principal_evaluate_quality
              (synthesize_results request_data (experts.map expert_slot))
              request_data).approved_for_publication },
         ?_, rfl, rfl, rfl, fun _ _ => rfl⟩
  show (if (principal_evaluate_quality
        (synthesize_results request_data (experts.map expert_slot))
        request_data).approved_for_publication = true then _ else _) = _
  rw [happ]
  simp

theorem has_key_append_items (items : List (String × String)) (d : AList) (k' : String) :
    has_key (append_items d items) k' = has_key d k' := by
  induction items generalizing d with
  | nil => rfl
  | cons p t ih =>
    show has_key (append_items (append_item d p.1 p.2) t) k' = has_key d k'
    rw [ih (append_item d p.1 p.2), has_key_append_item]

theorem has_key_cond_append (b : Bool) (items : List (String × String))
    (d : AList) (k' : String) :
    has_key (cond_append b items d) k' = has_key d k' := by
  unfold cond_append
  split
  · exact has_key_append_items items d k'
  · rfl

theorem has_key_generate_financial (description : String) (metadata : AList)
    (k' : String) :
    has_key (generate_financial_analysis description metadata) k'
      = has_key financial_analysis_base k' := by
  simp only [generate_financial_analysis, has_key_cond_append]

theorem has_key_generate_utility (description : String) (metadata : AList)
    (k' : String) :
    has_key (generate_utility_analysis description metadata) k'
      = has_key utility_analysis_base k' := by
  simp only [generate_utility_analysis, has_key_cond_append]

theorem has_key_generate_vehicle (description : String) (metadata : AList)
    (k' : String) :
    has_key (generate_vehicle_analysis description metadata) k'
      = has_key vehicle_analysis_base k' := by
  simp only [generate_vehicle_analysis, has_key_cond_append]

theorem has_key_set_key_ne (d : AList) (k k' : String) (v : PVal)
    (h : (k == k') = false) :
    has_key (set_key d k v) k' = has_key d k' := by
  unfold has_key
  rw [lookup_key_set_key_ne d k k' v h]

theorem has_key_wrap (result : AList) (pt : ℚ) (an ex : String)
    (qr : List (String × PVal)) (k' : String)
    (h1 : ("processing_time" == k') = false)
    (h2 : ("expert_agent" == k') = false)
    (h3 : ("expertise" == k') = false)
    (h4 : ("quality_report" == k') = false) :
    has_key (wrap_expert_result result pt an ex qr) k' = has_key result k' := by
  unfold wrap_expert_result
  rw [has_key_set_key_ne _ _ _ _ h4, has_key_set_key_ne _ _ _ _ h3,
      has_key_set_key_ne _ _ _ _ h2, has_key_set_key_ne _ _ _ _ h1]

theorem expert_run_output_no_merge_keys (e : ExpertRun) :
    has_key (expert_run_output e).2 "insights" = false
    ∧ has_key (expert_run_output e).2 "recommendations" = false
    ∧ has_key (expert_run_output e).2 "metrics" = false
    ∧ has_key (expert_run_output e).2 "error" = false := by
  obtain ⟨n, kind, d, m, pt, qr⟩ := e
  cases kind <;>
    · simp only [expert_run_output, generate_for]
      rw [has_key_wrap _ _ _ _ _ _ (by decide) (by decide) (by decide) (by decide),
          has_key_wrap _ _ _ _ _ _ (by decide) (by decide) (by decide) (by decide),
          has_key_wrap _ _ _ _ _ _ (by decide) (by decide) (by decide) (by decide),
          has_key_wrap _ _ _ _ _ _ (by decide) (by decide) (by decide) (by decide)]
      first
        | rw [has_key_generate_financial, has_key_generate_financial,
              has_key_generate_financial, has_key_generate_financial]
        | rw [has_key_generate_utility, has_key_generate_utility,
              has_key_generate_utility, has_key_generate_utility]
        | rw [has_key_generate_vehicle, has_key_generate_vehicle,
              has_key_generate_vehicle, has_key_generate_vehicle]
      refine ⟨by decide, by decide, by decide, by decide⟩

theorem lookup_of_has_key_false (d : AList) (k : String)
    (h : has_key d k = false) : lookup_key d k = none := by
  unfold has_key at h
  cases hl : lookup_key d k with
  | none => rfl
  | some v => rw [hl] at h; simp at h

theorem synthesize_fold_no_keys (rs : List (String × AList))
    (h : ∀ p ∈ rs, has_key p.2 "insights" = false
        ∧ has_key p.2 "recommendations" = false
        ∧ has_key p.2 "metrics" = false)
    (acc : List (String × PVal) × List String × List (String × PVal)) :
    rs.foldl synthesize_step acc = acc := by
  induction rs generalizing acc with
  | nil => rfl
  | cons p t ih =>
    obtain ⟨a1, a2, a3⟩ := acc
    have hp := h p (by simp)
    have hstep : synthesize_step (a1, a2, a3) p = (a1, a2, a3) := by
      unfold synthesize_step
      rw [lookup_of_has_key_false _ _ hp.1,
          lookup_of_has_key_false _ _ hp.2.1,
          lookup_of_has_key_false _ _ hp.2.2]
      split <;> rfl
    rw [List.foldl_cons, hstep]
    exact ih (fun q hq => h q (by simp [hq])) (a1, a2, a3)

/-- C10: none of the three expert analysis generators ever emits a
top-level "recommendations", "insights" or "metrics" key, so a synthesis
built from any collection of successful expert runs carries an empty
recommendation list, an empty insight map and an empty metric map. -/
theorem expert_outputs_lack_merge_keys :
    (∀ (description : String) (metadata : AList),
      has_key (generate_financial_analysis description metadata) "recommendations" = false
      ∧ has_key (generate_financial_analysis description metadata) "insights" = false
      ∧ has_key (generate_financial_analysis description metadata) "metrics" = false
      ∧ has_key (generate_utility_analysis description metadata) "recommendations" = false
      ∧ has_key (generate_utility_analysis description metadata) "insights" = false
      ∧ has_key (generate_utility_analysis description metadata) "metrics" = false
      ∧ has_key (generate_vehicle_analysis description metadata) "recommendations" = false
      ∧ has_key (generate_vehicle_analysis description metadata) "insights" = false
      ∧ has_key (generate_vehicle_analysis description metadata) "metrics" = false)
    ∧ (∀ (request_data : AList) (runs : List ExpertRun),
        lookup_key (synthesize_results request_data (runs.map expert_run_output))
          "recommendations" = some (.ls [])
        ∧ lookup_key (synthesize_results request_data (runs.map expert_run_output))
          "insights" = some (.dict [])
        ∧ lookup_key (synthesize_results request_data (runs.map expert_run_output))
          "metrics" = some (.dict [])) := by
  constructor
  · intro description metadata
    refine ⟨?_, ?_, ?_, ?_, ?_, ?_, ?_, ?_, ?_⟩ <;>
      first
        | (rw [has_key_generate_financial]; decide)
        | (rw [has_key_generate_utility]; decide)
        | (rw [has_key_generate_vehicle]; decide)
  · intro request_data runs
    have hall : ∀ p ∈ runs.map expert_run_output,
        has_key p.2 "insights" = false ∧ has_key p.2 "recommendations" = false
        ∧ has_key p.2 "metrics" = false := by
      intro p hp
      simp only [List.mem_map] at hp
      obtain ⟨e, _, rfl⟩ := hp
      have h := expert_run_output_no_merge_keys e
      exact ⟨h.1, h.2.1, h.2.2.1⟩
    have hfold := synthesize_fold_no_keys (runs.map expert_run_output) hall ([], [], [])
    refine ⟨?_, ?_, ?_⟩ <;>
      · simp only [synthesize_results]
        rw [hfold]
        rfl

end DigitalTwin

